import Mathlib

/-!
Shallow embedding of `fictplay.py` (class `FictitiousPlay`: fictitious play
with two players).

The engine's mutable state consists of one belief vector per player
(`player.current_belief`, a numpy float array, modelled by `List ℚ`) and the
integer action pair `current_actions`.  The external collaborators
(`NormalFormGame`, `Player.best_response`, the Dirichlet sampler) are out of
scope per the spec: best responses enter as function parameters
`br0 br1 : List ℚ → ℕ`, and the random Dirichlet draw of
`set_init_beliefs(None)` is handled by quantifying over the drawn pair.
Floating-point arithmetic is modelled exactly over ℚ.
-/

namespace FictPlay

/-- Engine state: `players[i].current_belief` for i = 0, 1 and
`current_actions[0]`, `current_actions[1]` (source lines 54-59). -/
structure FPState where
  belief0 : List ℚ
  belief1 : List ℚ
  action0 : ℕ
  action1 : ℕ
deriving DecidableEq

/-- `self.step_size = lambda t: 1 / (t+2)` (source line 61). -/
def step_size (t : ℕ) : ℚ := 1 / (t + 2)

/-- `set_init_beliefs(init_beliefs)` with an explicit pair: copies each vector
into the corresponding player's belief state
(`player.current_belief[:] = init_beliefs[i]`, source lines 91-92).  With a
correct-length vector the in-place copy is plain replacement; no validation of
the supplied vectors is performed.  The `init_beliefs is None` branch draws a
Dirichlet pair and then does the same copy, so it is covered by quantifying
over `init`. -/
def set_init_beliefs (init : List ℚ × List ℚ) (st : FPState) : FPState :=
  { st with belief0 := init.1, belief1 := init.2 }

/-- `play()` (source lines 94-97): `current_actions[i] =
players[i].best_response(players[i].current_belief)`.  `best_response` reads
only the belief passed to it and `play` never reads `current_actions`, so the
loop over players is a simultaneous assignment. -/
def play (br0 br1 : List ℚ → ℕ) (st : FPState) : FPState :=
  { st with action0 := br0 st.belief0, action1 := br1 st.belief1 }

/-- Body of the `update_beliefs` loop for one player (source lines 105-106):
`player.current_belief *= 1 - step_size` then
`player.current_belief[a] += step_size` where `a` is the opponent's current
action (numpy raises on an out-of-range `a`; the claims only concern in-range
indices, where `List.set` agrees with the numpy write). -/
def update_belief (s : ℚ) (a : ℕ) (b : List ℚ) : List ℚ :=
  let b1 := b.map (fun x => (1 - s) * x)
  b1.set a (b1.getD a 0 + s)

/-- `update_beliefs(step_size)` (source lines 99-106): player i's belief is
rewritten using `current_actions[1-i]`.  The loop mutates only the two belief
arrays; `current_actions` is never written, so player 1's update sees the same
pre-update action vector as player 0's. -/
def update_beliefs (s : ℚ) (st : FPState) : FPState :=
  { st with belief0 := update_belief s st.action1 st.belief0,
            belief1 := update_belief s st.action0 st.belief1 }

/-- One round of the `simulate_iter` loop body after the yield
(source lines 126-127): `self.play()` then
`self.update_beliefs(self.step_size(t))`. -/
def stepAt (br0 br1 : List ℚ → ℕ) (t : ℕ) (st : FPState) : FPState :=
  update_beliefs (step_size t) (play br0 br1 st)

/-- The value yielded by `simulate_iter` each round: `self.current_beliefs`
(source lines 72-74, 125) — the pair of the players' belief vectors. -/
def beliefsPair (st : FPState) : List ℚ × List ℚ := (st.belief0, st.belief1)

/-- The generator loop `for t in range(ts_length): yield current_beliefs;
play(); update_beliefs(step_size(t))` (source lines 124-127), unrolled from
round index `t` for `n` remaining rounds.  Returns the list of yielded
belief pairs (snapshots of the values at yield time) together with the engine
state after the generator is run to exhaustion — exhaustion executes the
post-yield `play()`/`update_beliefs` of the final round before `range` ends. -/
def iterFrom (br0 br1 : List ℚ → ℕ) :
    FPState → ℕ → ℕ → List (List ℚ × List ℚ) × FPState
  | st, _, 0 => ([], st)
  | st, t, n + 1 =>
    let r := iterFrom br0 br1 (stepAt br0 br1 t st) (t + 1) n
    (beliefsPair st :: r.1, r.2)

/-- The engine state after `n` rounds (`play` + `update_beliefs`) starting
from state `st` at round index `t`. -/
def runFrom (br0 br1 : List ℚ → ℕ) : FPState → ℕ → ℕ → FPState
  | st, _, 0 => st
  | st, t, n + 1 => runFrom br0 br1 (stepAt br0 br1 t st) (t + 1) n

/-- `simulate_iter(ts_length, init_beliefs)` (source lines 121-127): first
`set_init_beliefs(init_beliefs)`, then the yield/play/update loop with the
round index restarting at t = 0. -/
def simulate_iter (br0 br1 : List ℚ → ℕ) (ts_length : ℕ)
    (init : List ℚ × List ℚ) (st : FPState) :
    List (List ℚ × List ℚ) × FPState :=
  iterFrom br0 br1 (set_init_beliefs init st) 0 ts_length

/-- `simulate(ts_length, init_beliefs)` (source lines 108-119): exhausts
`simulate_iter`, copying each yielded pair into row t of one buffer per player
(`belief_sequences[i][t] = belief`) — the copy happens at yield time, before
the round's mutation, so row t holds the yield-time values.  Returned are the
two buffers (as lists of rows) and the engine state the run leaves behind. -/
def simulate (br0 br1 : List ℚ → ℕ) (ts_length : ℕ)
    (init : List ℚ × List ℚ) (st : FPState) :
    (List (List ℚ) × List (List ℚ)) × FPState :=
  let r := simulate_iter br0 br1 ts_length init st
  ((r.1.map Prod.fst, r.1.map Prod.snd), r.2)

/-- `replicate(T, num_reps, init_beliefs)` (source lines 129-148): each
repetition runs `for beliefs in simulate_iter(T+1, init_beliefs): x = beliefs`
and then copies `x` into row j.  `current_beliefs` yields the players' LIVE
`current_belief` arrays (not copies), so after the generator is exhausted —
which runs one more `play()`/`update_beliefs` after the last yield — the
arrays `x` refers to hold the final state's beliefs.  Hence row j equals the
belief pair of the exhausted run's final state, and repetition j + 1 starts
from that state. -/
def replicate (br0 br1 : List ℚ → ℕ) (T : ℕ) (num_reps : ℕ)
    (init : List ℚ × List ℚ) (st : FPState) : List (List ℚ × List ℚ) :=
  match num_reps with
  | 0 => []
  | n + 1 =>
    let fin := (simulate_iter br0 br1 (T + 1) init st).2
    beliefsPair fin :: replicate br0 br1 T n init fin

/-- Constructor input (source lines 35-46): either a pre-built
`NormalFormGame` (of which the engine's own check inspects only the player
count `data.N`) or a raw payoff array (of which the engine's own check
inspects only `payoffs.ndim`, the length of its shape). -/
inductive FPData where
  | game (N : ℕ)
  | raw (shape : List ℕ)
deriving DecidableEq

/-- Engine-level validation in `__init__` (source lines 36-46): a game object
with `N != 2` raises ValueError; a raw array with `ndim` outside 2 or 3 raises
ValueError; otherwise the engine raises nothing itself (the subsequent
`NormalFormGame(payoffs)` call is the external collaborator's). -/
def init_check : FPData → Except String Unit
  | .game N =>
    if N = 2 then .ok () else .error "input game must be a two-player game"
  | .raw shape =>
    if shape.length = 2 ∨ shape.length = 3 then .ok ()
    else .error "input data must be a square matrix or a bimatrix"

/-- A valid probability vector: non-negative entries summing to 1. -/
def IsProbVec (b : List ℚ) : Prop := (∀ x ∈ b, 0 ≤ x) ∧ b.sum = 1

instance (b : List ℚ) : Decidable (IsProbVec b) := by
  unfold IsProbVec; infer_instance

/-- Concrete deterministic best response for witnesses: always action 0. -/
def br_zero : List ℚ → ℕ := fun _ => 0

/-- Concrete deterministic best response for witnesses: always action 1. -/
def br_one : List ℚ → ℕ := fun _ => 1

/-- Concrete pre-call engine state for witnesses (a 2-action-per-player
engine whatever its earlier history). -/
def st_ex : FPState := ⟨[1, 0], [1, 0], 0, 0⟩

/-- Concrete explicit initial belief pair for witnesses. -/
def init_ex : List ℚ × List ℚ := ([1, 0], [1, 0])

lemma length_update_belief (s : ℚ) (a : ℕ) (b : List ℚ) :
    (update_belief s a b).length = b.length := by
  simp [update_belief]

lemma getD_map_mul (c : ℚ) (b : List ℚ) (k : ℕ) (hk : k < b.length) :
    (b.map (fun x => c * x)).getD k 0 = c * b.getD k 0 := by
  rw [List.getD_eq_getElem _ _ (by simpa using hk), List.getD_eq_getElem _ _ hk,
    List.getElem_map]

lemma update_belief_getElem? (s : ℚ) (a : ℕ) (b : List ℚ) (k : ℕ)
    (hk : k < b.length) :
    (update_belief s a b)[k]? =
      some ((1 - s) * b.getD k 0 + if k = a then s else 0) := by
  unfold update_belief
  by_cases hka : k = a
  · subst hka
    rw [List.getElem?_set_eq_of_lt _ (by simpa using hk)]
    rw [getD_map_mul _ _ _ hk]
    simp
  · rw [List.getElem?_set_ne (fun h => hka h.symm), List.getElem?_map,
      List.getElem?_eq_getElem (by simpa using hk), List.getD_eq_getElem _ _ hk]
    simp [hka]

lemma update_belief_getD (s : ℚ) (a : ℕ) (b : List ℚ) (k : ℕ)
    (hk : k < b.length) :
    (update_belief s a b).getD k 0 =
      (1 - s) * b.getD k 0 + s * (if k = a then 1 else 0) := by
  rw [List.getD_eq_getElem?_getD, update_belief_getElem? s a b k hk]
  by_cases hka : k = a <;> simp [hka]

lemma sum_map_mul (c : ℚ) (b : List ℚ) :
    (b.map (fun x => c * x)).sum = c * b.sum := by
  have h := List.sum_map_mul_left b id c
  simpa using h

lemma sum_set (b : List ℚ) (k : ℕ) (v : ℚ) (hk : k < b.length) :
    (b.set k v).sum = b.sum - b.getD k 0 + v := by
  induction b generalizing k with
  | nil => simp at hk
  | cons x xs ih =>
    cases k with
    | zero => simp [List.getD_cons_zero]; ring
    | succ k =>
      simp only [List.set_cons_succ, List.sum_cons, List.getD_cons_succ]
      rw [ih k (by simpa using hk)]
      ring

lemma sum_update_belief (s : ℚ) (a : ℕ) (b : List ℚ) (ha : a < b.length) :
    (update_belief s a b).sum = (1 - s) * b.sum + s := by
  unfold update_belief
  rw [sum_set _ _ _ (by simpa using ha), sum_map_mul]
  ring

lemma getD_nonneg (b : List ℚ) (h : ∀ x ∈ b, 0 ≤ x) (k : ℕ) :
    0 ≤ b.getD k 0 := by
  by_cases hk : k < b.length
  · rw [List.getD_eq_getElem _ _ hk]
    exact h _ (List.getElem_mem hk)
  · rw [List.getD_eq_default _ _ (by omega)]

lemma nonneg_update_belief (s : ℚ) (a : ℕ) (b : List ℚ)
    (hs0 : 0 ≤ s) (hs1 : s ≤ 1) (h : ∀ x ∈ b, 0 ≤ x) :
    ∀ x ∈ update_belief s a b, 0 ≤ x := by
  intro x hx
  unfold update_belief at hx
  rcases List.mem_or_eq_of_mem_set hx with hx | hx
  · rcases List.mem_map.mp hx with ⟨y, hy, rfl⟩
    exact mul_nonneg (by linarith) (h y hy)
  · subst hx
    have h1 : ∀ x ∈ b.map (fun x => (1 - s) * x), 0 ≤ x := by
      intro x hx
      rcases List.mem_map.mp hx with ⟨y, hy, rfl⟩
      exact mul_nonneg (by linarith) (h y hy)
    have := getD_nonneg _ h1 a
    linarith

lemma isProbVec_update_belief (s : ℚ) (a : ℕ) (b : List ℚ)
    (hs0 : 0 ≤ s) (hs1 : s ≤ 1) (ha : a < b.length) (hb : IsProbVec b) :
    IsProbVec (update_belief s a b) := by
  refine ⟨nonneg_update_belief s a b hs0 hs1 hb.1, ?_⟩
  rw [sum_update_belief s a b ha, hb.2]
  ring

lemma step_size_bounds (t : ℕ) : 0 < step_size t ∧ step_size t ≤ 1 := by
  unfold step_size
  constructor
  · positivity
  · rw [div_le_one (by positivity)]
    have : (0 : ℚ) ≤ t := by positivity
    linarith

lemma iterFrom_snd (br0 br1 : List ℚ → ℕ) (st : FPState) (t n : ℕ) :
    (iterFrom br0 br1 st t n).2 = runFrom br0 br1 st t n := by
  induction n generalizing st t with
  | zero => rfl
  | succ n ih => simp only [iterFrom, runFrom, ih]

lemma iterFrom_length (br0 br1 : List ℚ → ℕ) (st : FPState) (t n : ℕ) :
    (iterFrom br0 br1 st t n).1.length = n := by
  induction n generalizing st t with
  | zero => rfl
  | succ n ih => simp only [iterFrom, List.length_cons, ih]

lemma iterFrom_getElem? (br0 br1 : List ℚ → ℕ) (st : FPState) (t : ℕ)
    {n k : ℕ} (hk : k < n) :
    (iterFrom br0 br1 st t n).1[k]? =
      some (beliefsPair (runFrom br0 br1 st t k)) := by
  induction n generalizing st t k with
  | zero => omega
  | succ n ih =>
    cases k with
    | zero => simp [iterFrom, runFrom]
    | succ k =>
      simp only [iterFrom, List.getElem?_cons_succ, runFrom]
      exact ih _ _ (by omega)

lemma stepAt_set_init (br0 br1 : List ℚ → ℕ) (t : ℕ)
    (init : List ℚ × List ℚ) (st st' : FPState) :
    stepAt br0 br1 t (set_init_beliefs init st) =
      stepAt br0 br1 t (set_init_beliefs init st') := by
  simp [stepAt, play, set_init_beliefs, update_beliefs]

lemma simulate_iter_fst_restartable (br0 br1 : List ℚ → ℕ) (ts : ℕ)
    (init : List ℚ × List ℚ) (st st' : FPState) :
    (simulate_iter br0 br1 ts init st).1 =
      (simulate_iter br0 br1 ts init st').1 := by
  unfold simulate_iter
  cases ts with
  | zero => rfl
  | succ n =>
    simp only [iterFrom]
    rw [stepAt_set_init br0 br1 0 init st st']
    rfl

lemma stepAt_preserves (br0 br1 : List ℚ → ℕ) (t : ℕ) (st : FPState)
    (L0 L1 : ℕ) (hbr0 : ∀ b, br0 b < L1) (hbr1 : ∀ b, br1 b < L0)
    (h0 : st.belief0.length = L0) (h1 : st.belief1.length = L1)
    (p0 : IsProbVec st.belief0) (p1 : IsProbVec st.belief1) :
    (stepAt br0 br1 t st).belief0.length = L0 ∧
    (stepAt br0 br1 t st).belief1.length = L1 ∧
    IsProbVec (stepAt br0 br1 t st).belief0 ∧
    IsProbVec (stepAt br0 br1 t st).belief1 := by
  have hs := step_size_bounds t
  have ha1 : br1 st.belief1 < st.belief0.length := h0 ▸ hbr1 st.belief1
  have ha0 : br0 st.belief0 < st.belief1.length := h1 ▸ hbr0 st.belief0
  refine ⟨?_, ?_, ?_, ?_⟩
  · simp [stepAt, play, update_beliefs, length_update_belief, h0]
  · simp [stepAt, play, update_beliefs, length_update_belief, h1]
  · exact isProbVec_update_belief _ _ _ (le_of_lt hs.1) hs.2 ha1 p0
  · exact isProbVec_update_belief _ _ _ (le_of_lt hs.1) hs.2 ha0 p1

lemma iterFrom_prob_invariant (br0 br1 : List ℚ → ℕ) (L0 L1 : ℕ)
    (hbr0 : ∀ b, br0 b < L1) (hbr1 : ∀ b, br1 b < L0) :
    ∀ (n : ℕ) (st : FPState) (t : ℕ),
      st.belief0.length = L0 → st.belief1.length = L1 →
      IsProbVec st.belief0 → IsProbVec st.belief1 →
      ∀ p ∈ (iterFrom br0 br1 st t n).1, IsProbVec p.1 ∧ IsProbVec p.2 := by
  intro n
  induction n with
  | zero => intro st t _ _ _ _ p hp; simp [iterFrom] at hp
  | succ n ih =>
    intro st t h0 h1 p0 p1 p hp
    simp only [iterFrom, List.mem_cons] at hp
    rcases hp with rfl | hp
    · exact ⟨p0, p1⟩
    · obtain ⟨q0, q1, q2, q3⟩ :=
        stepAt_preserves br0 br1 t st L0 L1 hbr0 hbr1 h0 h1 p0 p1
      exact ih (stepAt br0 br1 t st) (t + 1) q0 q1 q2 q3 p hp

/-- C1: for each player i, `update_beliefs(s)` replaces belief i by the convex
combination (1 - s) * old belief + s * onehot(opponent's current action),
entrywise; both updates read the same pre-update `current_actions` pair
(simultaneous semantics), and nothing besides the two belief vectors changes:
the action pair is left untouched. -/
theorem update_beliefs_convex_combination (s : ℚ) (st : FPState)
    (h1 : st.action1 < st.belief0.length)
    (h0 : st.action0 < st.belief1.length) :
    ((update_beliefs s st).belief0.length = st.belief0.length ∧
      ∀ k < st.belief0.length,
        (update_beliefs s st).belief0.getD k 0 =
          (1 - s) * st.belief0.getD k 0 +
            s * (if k = st.action1 then 1 else 0)) ∧
    ((update_beliefs s st).belief1.length = st.belief1.length ∧
      ∀ k < st.belief1.length,
        (update_beliefs s st).belief1.getD k 0 =
          (1 - s) * st.belief1.getD k 0 +
            s * (if k = st.action0 then 1 else 0)) ∧
    (update_beliefs s st).action0 = st.action0 ∧
    (update_beliefs s st).action1 = st.action1 := by
  refine ⟨⟨length_update_belief _ _ _, ?_⟩,
    ⟨length_update_belief _ _ _, ?_⟩, rfl, rfl⟩
  · intro k hk
    exact update_belief_getD s st.action1 st.belief0 k hk
  · intro k hk
    exact update_belief_getD s st.action0 st.belief1 k hk

/-- Witness for C1 at s = 1/2 on a concrete state with in-range actions. -/
theorem update_beliefs_convex_combination_witness :
    ((update_beliefs (1/2) st_ex).belief0.length = st_ex.belief0.length ∧
      ∀ k < st_ex.belief0.length,
        (update_beliefs (1/2) st_ex).belief0.getD k 0 =
          (1 - 1/2) * st_ex.belief0.getD k 0 +
            (1/2) * (if k = st_ex.action1 then 1 else 0)) ∧
    ((update_beliefs (1/2) st_ex).belief1.length = st_ex.belief1.length ∧
      ∀ k < st_ex.belief1.length,
        (update_beliefs (1/2) st_ex).belief1.getD k 0 =
          (1 - 1/2) * st_ex.belief1.getD k 0 +
            (1/2) * (if k = st_ex.action0 then 1 else 0)) ∧
    (update_beliefs (1/2) st_ex).action0 = st_ex.action0 ∧
    (update_beliefs (1/2) st_ex).action1 = st_ex.action1 :=
  update_beliefs_convex_combination (1/2) st_ex (by decide) (by decide)

/-- C2: `simulate_iter(ts_length, init_beliefs)` produces exactly `ts_length`
belief pairs; the output is independent of the engine state at call time
(beliefs are reinitialized and the schedule restarts at t = 0); element t is
the belief pair after exactly t rounds of play-then-update starting from the
initial beliefs; element 0 is the initial belief pair itself. -/
theorem simulate_iter_spec (br0 br1 : List ℚ → ℕ) (ts : ℕ)
    (init : List ℚ × List ℚ) (st st' : FPState) :
    (simulate_iter br0 br1 ts init st).1.length = ts ∧
    (simulate_iter br0 br1 ts init st).1 =
      (simulate_iter br0 br1 ts init st').1 ∧
    (∀ t < ts, (simulate_iter br0 br1 ts init st).1[t]? =
      some (beliefsPair (runFrom br0 br1 (set_init_beliefs init st) 0 t))) ∧
    (0 < ts → (simulate_iter br0 br1 ts init st).1[0]? = some init) := by
  refine ⟨iterFrom_length br0 br1 _ 0 ts,
    simulate_iter_fst_restartable br0 br1 ts init st st', ?_, ?_⟩
  · intro t ht
    exact iterFrom_getElem? br0 br1 _ 0 ht
  · intro hts
    exact iterFrom_getElem? br0 br1 (set_init_beliefs init st) 0 hts

/-- Witness for C2 with ts_length = 2, concrete best responses, and two
different pre-call engine states. -/
theorem simulate_iter_spec_witness :
    ((1 : ℕ) < 2 ∧ (simulate_iter br_zero br_one 2 init_ex st_ex).1[1]? =
      some (beliefsPair
        (runFrom br_zero br_one (set_init_beliefs init_ex st_ex) 0 1))) ∧
    ((0 : ℕ) < 2 ∧
      (simulate_iter br_zero br_one 2 init_ex st_ex).1[0]? = some init_ex) ∧
    (simulate_iter br_zero br_one 2 init_ex st_ex).1 =
      (simulate_iter br_zero br_one 2 init_ex ⟨[], [], 5, 7⟩).1 :=
  ⟨⟨by decide,
      (simulate_iter_spec br_zero br_one 2 init_ex st_ex st_ex).2.2.1 1
        (by decide)⟩,
   ⟨by decide,
      (simulate_iter_spec br_zero br_one 2 init_ex st_ex st_ex).2.2.2
        (by decide)⟩,
   (simulate_iter_spec br_zero br_one 2 init_ex st_ex ⟨[], [], 5, 7⟩).2.1⟩

/-- C3 (code bug): `replicate(T, num_reps, init_beliefs)` is meant to record
each run's round-T belief pair (the last element yielded by
`simulate_iter(T+1, ...)`, which reflects T updates).  But the loop variable
`x = beliefs` holds the players' live `current_belief` arrays, and exhausting
the generator runs one more `play()`/`update_beliefs` after the last yield, so
the copied row reflects T+1 updates.  Concretely, with best responses
constantly 0 and 1, initial beliefs ([1,0],[1,0]) and T = 1: the round-1
belief of player 0 is [1/2, 1/2], but replicate records [1/3, 2/3]. -/
theorem replicate_records_extra_update :
    (replicate br_zero br_one 1 1 init_ex st_ex)[0]? =
      some ([1/3, 2/3], [1, 0]) ∧
    (simulate_iter br_zero br_one 2 init_ex st_ex).1[1]? =
      some ([1/2, 1/2], [1, 0]) ∧
    (replicate br_zero br_one 1 1 init_ex st_ex)[0]? ≠
      (simulate_iter br_zero br_one 2 init_ex st_ex).1[1]? := by
  refine ⟨?_, ?_, ?_⟩ <;>
    norm_num [replicate, simulate_iter, iterFrom, stepAt, play, update_beliefs,
      update_belief, set_init_beliefs, beliefsPair, step_size, br_zero, br_one,
      st_ex, init_ex]

/-- C4: `simulate(ts_length, init_beliefs)` returns one buffer per player with
exactly `ts_length` rows, and row t of player i's buffer is component i of the
t-th element yielded by `simulate_iter` under the same initial beliefs and
best responses; in particular row 0 of player i's buffer is player i's initial
belief, not a post-update value. -/
theorem simulate_refines_simulate_iter (br0 br1 : List ℚ → ℕ) (ts : ℕ)
    (init : List ℚ × List ℚ) (st : FPState) :
    (simulate br0 br1 ts init st).1.1.length = ts ∧
    (simulate br0 br1 ts init st).1.2.length = ts ∧
    (∀ t < ts,
      (simulate br0 br1 ts init st).1.1[t]? =
        ((simulate_iter br0 br1 ts init st).1[t]?).map Prod.fst ∧
      (simulate br0 br1 ts init st).1.2[t]? =
        ((simulate_iter br0 br1 ts init st).1[t]?).map Prod.snd) ∧
    (0 < ts →
      (simulate br0 br1 ts init st).1.1[0]? = some init.1 ∧
      (simulate br0 br1 ts init st).1.2[0]? = some init.2) := by
  refine ⟨?_, ?_, ?_, ?_⟩
  · simp [simulate, simulate_iter, iterFrom_length]
  · simp [simulate, simulate_iter, iterFrom_length]
  · intro t _
    constructor
    · simp [simulate, List.getElem?_map]
    · simp [simulate, List.getElem?_map]
  · intro hts
    have h0 : (simulate_iter br0 br1 ts init st).1[0]? = some init :=
      iterFrom_getElem? br0 br1 (set_init_beliefs init st) 0 hts
    constructor
    · simp [simulate, List.getElem?_map, h0]
    · simp [simulate, List.getElem?_map, h0]

/-- Witness for C4 with ts_length = 2 on concrete data. -/
theorem simulate_refines_simulate_iter_witness :
    ((1 : ℕ) < 2 ∧
      (simulate br_zero br_one 2 init_ex st_ex).1.1[1]? =
        ((simulate_iter br_zero br_one 2 init_ex st_ex).1[1]?).map Prod.fst ∧
      (simulate br_zero br_one 2 init_ex st_ex).1.2[1]? =
        ((simulate_iter br_zero br_one 2 init_ex st_ex).1[1]?).map Prod.snd) ∧
    ((0 : ℕ) < 2 ∧
      (simulate br_zero br_one 2 init_ex st_ex).1.1[0]? = some init_ex.1 ∧
      (simulate br_zero br_one 2 init_ex st_ex).1.2[0]? = some init_ex.2) :=
  ⟨⟨by decide,
      (simulate_refines_simulate_iter br_zero br_one 2 init_ex st_ex).2.2.1 1
        (by decide)⟩,
   ⟨by decide,
      (simulate_refines_simulate_iter br_zero br_one 2 init_ex st_ex).2.2.2
        (by decide)⟩⟩

/-- C5: the engine's own construction-time validation raises exactly when a
pre-built game has a player count other than 2, or a raw payoff array has a
number of dimensions other than 2 or 3; in every other case the engine-level
check passes.  The error is returned in place of an engine, so no partial
engine is constructed. -/
theorem init_check_error_iff (d : FPData) :
    (∃ e, init_check d = Except.error e) ↔
      ((∃ N, d = FPData.game N ∧ N ≠ 2) ∨
       (∃ shape, d = FPData.raw shape ∧
          shape.length ≠ 2 ∧ shape.length ≠ 3)) := by
  cases d with
  | game N =>
    by_cases h : N = 2 <;> simp [init_check, h]
  | raw shape =>
    by_cases h2 : shape.length = 2 <;> by_cases h3 : shape.length = 3 <;>
      simp [init_check, h2, h3]

/-- C6: a single `update_beliefs(s)` with s in [0,1], in-range opponent
actions and valid probability-vector beliefs yields probability-vector
beliefs again; consequently, along `simulate_iter` started from valid initial
beliefs (with the built-in schedule 1/(t+2) and best responses that always
return valid action indices), every yielded belief pair consists of valid
probability vectors, exactly over ℚ. -/
theorem beliefs_stay_probability_vectors :
    (∀ (s : ℚ) (st : FPState), 0 ≤ s → s ≤ 1 →
      st.action1 < st.belief0.length → st.action0 < st.belief1.length →
      IsProbVec st.belief0 → IsProbVec st.belief1 →
      IsProbVec (update_beliefs s st).belief0 ∧
        IsProbVec (update_beliefs s st).belief1) ∧
    (∀ (br0 br1 : List ℚ → ℕ) (ts : ℕ) (init : List ℚ × List ℚ)
        (st : FPState),
      (∀ b, br0 b < init.2.length) → (∀ b, br1 b < init.1.length) →
      IsProbVec init.1 → IsProbVec init.2 →
      ∀ p ∈ (simulate_iter br0 br1 ts init st).1,
        IsProbVec p.1 ∧ IsProbVec p.2) := by
  constructor
  · intro s st hs0 hs1 ha1 ha0 p0 p1
    exact ⟨isProbVec_update_belief s st.action1 st.belief0 hs0 hs1 ha1 p0,
      isProbVec_update_belief s st.action0 st.belief1 hs0 hs1 ha0 p1⟩
  · intro br0 br1 ts init st hbr0 hbr1 p0 p1
    exact iterFrom_prob_invariant br0 br1 init.1.length init.2.length
      hbr0 hbr1 ts (set_init_beliefs init st) 0 rfl rfl p0 p1

/-- Witness for C6: a 3-round run from valid initial beliefs with constant
valid best responses; every yielded pair is a probability-vector pair. -/
theorem beliefs_stay_probability_vectors_witness :
    ∀ p ∈ (simulate_iter br_zero br_zero 3 init_ex st_ex).1,
      IsProbVec p.1 ∧ IsProbVec p.2 :=
  beliefs_stay_probability_vectors.2 br_zero br_zero 3 init_ex st_ex
    (fun b => by norm_num [br_zero, init_ex])
    (fun b => by norm_num [br_zero, init_ex])
    (by norm_num [IsProbVec, init_ex]) (by norm_num [IsProbVec, init_ex])

/-- C7: `set_init_beliefs([b0, b1])` with correct-length vectors copies each
vector into the corresponding player's belief state, so `current_beliefs`
equals (b0, b1) exactly afterwards; the actions are untouched, and no
validity condition on b0, b1 (such as being a probability distribution) is
assumed or checked. -/
theorem set_init_beliefs_copies (b0 b1 : List ℚ) (st : FPState)
    (h0 : b0.length = st.belief0.length)
    (h1 : b1.length = st.belief1.length) :
    beliefsPair (set_init_beliefs (b0, b1) st) = (b0, b1) ∧
    (set_init_beliefs (b0, b1) st).action0 = st.action0 ∧
    (set_init_beliefs (b0, b1) st).action1 = st.action1 :=
  ⟨rfl, rfl, rfl⟩

/-- Witness for C7, with a pair that is not a probability distribution at all
(negative entry, wrong sums) — it is still copied verbatim. -/
theorem set_init_beliefs_copies_witness :
    beliefsPair (set_init_beliefs ([5, -3], [0, 2]) st_ex) = ([5, -3], [0, 2]) ∧
    (set_init_beliefs ([5, -3], [0, 2]) st_ex).action0 = st_ex.action0 ∧
    (set_init_beliefs ([5, -3], [0, 2]) st_ex).action1 = st_ex.action1 :=
  set_init_beliefs_copies [5, -3] [0, 2] st_ex (by decide) (by decide)

/-- C8: the installed schedule is t ↦ 1/(t+2); its value at 0 is 1/2, which
lies in (0,1); every value lies in (0,1]; the schedule is strictly decreasing
and becomes smaller than any positive ε. -/
theorem step_size_schedule_spec :
    (∀ t : ℕ, step_size t = 1 / (t + 2)) ∧
    step_size 0 = 1 / 2 ∧ 0 < step_size 0 ∧ step_size 0 < 1 ∧
    (∀ t, 0 < step_size t ∧ step_size t ≤ 1) ∧
    (∀ t, step_size (t + 1) < step_size t) ∧
    (∀ ε : ℚ, 0 < ε → ∃ t, step_size t < ε) := by
  refine ⟨fun t => rfl, by norm_num [step_size], by norm_num [step_size],
    by norm_num [step_size], step_size_bounds, ?_, ?_⟩
  · intro t
    unfold step_size
    have ht : (0 : ℚ) ≤ t := Nat.cast_nonneg t
    rw [div_lt_div_iff₀ (by push_cast; linarith) (by linarith)]
    push_cast
    linarith
  · intro ε hε
    obtain ⟨n, hn⟩ := exists_nat_gt (1 / ε)
    refine ⟨n, ?_⟩
    unfold step_size
    have h1 : (0 : ℚ) < (n : ℚ) + 2 := by positivity
    rw [div_lt_iff₀ h1]
    have h2 : 1 / ε < (n : ℚ) + 2 := by linarith
    rw [div_lt_iff₀ hε] at h2
    linarith [h2]

/-- Witness for C8: the tail of the schedule drops below ε = 1/100. -/
theorem step_size_schedule_spec_witness :
    (0 : ℚ) < 1 / 100 ∧ ∃ t, step_size t < 1 / 100 :=
  ⟨by norm_num, step_size_schedule_spec.2.2.2.2.2.2 (1 / 100) (by norm_num)⟩

/-- C9: the engine's own validation of a raw rank-2 payoff array checks only
that the number of dimensions is 2 — any 2-dimensional shape, square or not,
passes; a failure for a non-square rank-2 array could only come from the
external NormalFormGame constructor, which is outside the engine's check. -/
theorem rank2_any_shape_passes (m n : ℕ) :
    init_check (FPData.raw [m, n]) = Except.ok () := by
  simp [init_check]

/-- C10: exhausting `simulate_iter(ts_length, ...)` (which `simulate` does)
leaves the engine state equal to ts_length rounds of play-then-update applied
to the initialized state, while the last yielded/recorded element is the
belief pair after only ts_length - 1 rounds — the final round's
`play()`/`update_beliefs` runs after the final yield.  On a concrete instance
the live post-run belief of player 0 differs from the last recorded row. -/
theorem post_run_state_one_more_update (br0 br1 : List ℚ → ℕ) (ts : ℕ)
    (init : List ℚ × List ℚ) (st : FPState) (h : 1 ≤ ts) :
    (simulate br0 br1 ts init st).2 =
      runFrom br0 br1 (set_init_beliefs init st) 0 ts ∧
    (simulate_iter br0 br1 ts init st).2 =
      runFrom br0 br1 (set_init_beliefs init st) 0 ts ∧
    (simulate_iter br0 br1 ts init st).1[ts - 1]? =
      some (beliefsPair
        (runFrom br0 br1 (set_init_beliefs init st) 0 (ts - 1))) ∧
    (simulate br_zero br_one 2 init_ex st_ex).1.1[1]? ≠
      some (simulate br_zero br_one 2 init_ex st_ex).2.belief0 := by
  refine ⟨iterFrom_snd br0 br1 _ 0 ts, iterFrom_snd br0 br1 _ 0 ts, ?_, ?_⟩
  · exact iterFrom_getElem? br0 br1 _ 0 (by omega)
  · norm_num [simulate, simulate_iter, iterFrom, stepAt, play, update_beliefs,
      update_belief, set_init_beliefs, beliefsPair, step_size, br_zero, br_one,
      st_ex, init_ex]

/-- Witness for C10 at ts_length = 2 on concrete data. -/
theorem post_run_state_one_more_update_witness :
    (1 : ℕ) ≤ 2 ∧
    (simulate br_zero br_one 2 init_ex st_ex).2 =
      runFrom br_zero br_one (set_init_beliefs init_ex st_ex) 0 2 :=
  ⟨by decide,
    (post_run_state_one_more_update br_zero br_one 2 init_ex st_ex
      (by decide)).1⟩

end FictPlay
